import Mathlib

/-!
Shallow embedding of the catalogue-crawler scripts of the repository
(`all_books_data.py`, `books_data_images.py`, `images_book_data.py`,
`category_books_data.py`, `test2_image.py`, `test_single_book_data.py`).

HTML pages are modelled by structures recording exactly the pieces the
scripts query (heading text, product-information table rows, breadcrumb
entries, gallery image source, listing product links, next-page link).
Network responses are modelled by an explicit response datatype; the
filesystem by an association list from paths to byte lists.  Python
strings are Lean `String`s; `None` is `Option.none` where a function can
receive it.  `str.strip()` / `get_text(strip=True)` are modelled by
`pyStrip`; `str.replace`, `str.split`, `c in s` and `str.startswith` by the
`pyReplace` / `pySplitOn` / `pyContains` / `pyStartsWith` functions below,
which mirror the Python semantics over character lists.
-/

abbrev Url := String

/-- Python `a or b` for strings: `b` when `a` is empty (empty strings are
falsy), otherwise `a`. -/
def pyOr (a b : String) : String := if a = "" then b else a

/-- Python `str.strip()` (no argument): drop leading and trailing
whitespace; also models BeautifulSoup's `get_text(strip=True)` on the
one-text-node elements of this site. -/
def pyStrip (s : String) : String :=
  String.mk (((s.toList.dropWhile Char.isWhitespace).reverse.dropWhile
    Char.isWhitespace).reverse)

/-- Worker for `pyReplace`; the fuel starts at the length of the list, which
bounds the number of steps, so the `0, l` fallback is never reached. -/
def replaceAux (pat repl : List Char) : Nat → List Char → List Char
  | _, [] => []
  | 0, l => l
  | fuel+1, c :: rest =>
    if pat ≠ [] ∧ pat.isPrefixOf (c :: rest) then
      repl ++ replaceAux pat repl fuel ((c :: rest).drop pat.length)
    else c :: replaceAux pat repl fuel rest

/-- Python `s.replace(pat, repl)`: replace every occurrence, leftmost first,
non-overlapping. -/
def pyReplace (s pat repl : String) : String :=
  String.mk (replaceAux pat.toList repl.toList s.toList.length s.toList)

/-- Worker for `pySplitOn`, with the same fuel convention as `replaceAux`. -/
def splitOnAux (sep : List Char) : Nat → List Char → List Char → List (List Char)
  | _, acc, [] => [acc.reverse]
  | 0, acc, l => [acc.reverse ++ l]
  | fuel+1, acc, c :: rest =>
    if sep ≠ [] ∧ sep.isPrefixOf (c :: rest) then
      acc.reverse :: splitOnAux sep fuel [] ((c :: rest).drop sep.length)
    else splitOnAux sep fuel (c :: acc) rest

/-- Python `s.split(sep)` for a non-empty separator. -/
def pySplitOn (s sep : String) : List String :=
  (splitOnAux sep.toList s.toList.length [] s.toList).map String.mk

/-- Python `c in s` for a single character. -/
def pyContains (s : String) (c : Char) : Bool := s.toList.any (· = c)

/-- Python `s.startswith(pre)`. -/
def pyStartsWith (s pre : String) : Bool := pre.toList.isPrefixOf s.toList

/-- The character class `[A-Za-z0-9_-]` used by the sanitizing regex of
`cleaner` / `sanitize`. -/
def safeChar (c : Char) : Bool := c.isAlpha || c.isDigit || c = '_' || c = '-'

/-- `re.sub(r"[^A-Za-z0-9_-]+", "_", s)`: every maximal run of characters
outside the class is replaced by a single underscore.  The boolean flag
records whether the previous character belonged to such a run. -/
def subSafeRuns : List Char → Bool → List Char
  | [], _ => []
  | c :: rest, inRun =>
    if safeChar c then c :: subSafeRuns rest false
    else if inRun then subSafeRuns rest true
    else '_' :: subSafeRuns rest true

/-- Python `str.strip("_")`: drop leading and trailing underscores. -/
def stripUnderscores (l : List Char) : List Char :=
  ((l.dropWhile (· = '_')).reverse.dropWhile (· = '_')).reverse

/-- `books_data_images.cleaner` (= `test2_image.cleaner`):
`re.sub(r"[^A-Za-z0-9_-]+", "_", (s or "")).strip("_") or "file"`.
The argument is an `Option String` so that a Python `None` argument is
representable (`(s or "")` turns both `None` and `""` into `""`). -/
def cleaner (s : Option String) : String :=
  pyOr (String.mk (stripUnderscores (subSafeRuns (s.getD "").toList false))) "file"

/-- `images_book_data.sanitize`: textually the same computation as
`cleaner`. -/
def sanitize (s : Option String) : String :=
  pyOr (String.mk (stripUnderscores (subSafeRuns (s.getD "").toList false))) "file"

theorem subSafeRuns_safe (l : List Char) (b : Bool) :
    ∀ c ∈ subSafeRuns l b, safeChar c := by
  induction l generalizing b with
  | nil => intro c hc; simp [subSafeRuns] at hc
  | cons x rest ih =>
    intro c hc
    by_cases hx : safeChar x
    · simp only [subSafeRuns, hx, if_pos] at hc
      rcases List.mem_cons.mp hc with h | h
      · exact h ▸ hx
      · exact ih false c h
    · cases b with
      | true =>
        simp only [subSafeRuns, hx, if_neg, Bool.false_eq_true, if_true] at hc
        exact ih true c hc
      | false =>
        simp only [subSafeRuns, hx] at hc
        rcases List.mem_cons.mp hc with h | h
        · subst h; decide
        · exact ih true c h

theorem stripUnderscores_subset (l : List Char) :
    ∀ c ∈ stripUnderscores l, c ∈ l := by
  intro c hc
  unfold stripUnderscores at hc
  rw [List.mem_reverse] at hc
  have h1 := (List.dropWhile_sublist (l := (l.dropWhile (· = '_')).reverse)
    (p := (· = '_'))).mem hc
  rw [List.mem_reverse] at h1
  exact (List.dropWhile_sublist (l := l) (p := (· = '_'))).mem h1

/-- C10: for every input (any string, the empty string, or a Python `None`),
the filename sanitizer `cleaner` returns a non-empty string consisting only
of characters from `[A-Za-z0-9_-]` (falling back to the literal `"file"`),
and `images_book_data.sanitize` agrees with it, so every category CSV
filename stem and image filename stem the scripts build from it is
non-empty and filesystem-safe. -/
theorem C10_cleaner_safe (s : Option String) :
    cleaner s ≠ "" ∧ (∀ c ∈ (cleaner s).toList, safeChar c) ∧ sanitize s = cleaner s := by
  have hchars : ∀ c ∈ stripUnderscores (subSafeRuns (s.getD "").toList false), safeChar c :=
    fun c hc => subSafeRuns_safe _ _ c (stripUnderscores_subset _ c hc)
  unfold cleaner sanitize pyOr
  by_cases h : String.mk (stripUnderscores (subSafeRuns (s.getD "").toList false)) = ""
  · rw [if_pos h]
    exact ⟨by decide, by decide, rfl⟩
  · rw [if_neg h]
    exact ⟨h, hchars, rfl⟩

inductive CellTag where
  | th : CellTag
  | td : CellTag
deriving DecidableEq, Repr

/-- One `<tr>` of the product-information table: its `th`/`td` cells with
their raw text, in document order. -/
structure TableRow where
  cells : List (CellTag × String)
deriving DecidableEq, Repr

/-- One `<li>` of the breadcrumb trail: its own raw text and, when the entry
carries an `<a>` anchor, the anchor's raw text. -/
structure Crumb where
  text : String
  linkText : Option String
deriving DecidableEq, Repr

/-- A product detail page, recording exactly the pieces of markup the
extractor functions query.  Raw text is stored; `pyStrip` is applied at
the call sites that use `.strip()` / `get_text(strip=True)`. -/
structure ProductPage where
  /-- text of the page's `<h1>`; `none` when absent -/
  h1 : Option String
  /-- rows of `table.table-striped`; `none` when that table is absent -/
  specTable : Option (List TableRow)
  /-- whether `div#product_description` is present -/
  descAnchor : Bool
  /-- text of the first `<p>` sibling following that anchor -/
  descP : Option String
  /-- entries of `ul.breadcrumb` in order -/
  breadcrumb : List Crumb
  /-- `src` attribute of `#product_gallery img`; `none` when tag or attribute is absent -/
  galleryImgSrc : Option String
deriving DecidableEq, Repr

/-- Everything of `base` up to and including its last `/` (empty when `base`
contains no slash). -/
def baseDir (base : String) : String :=
  String.mk ((base.toList.reverse.dropWhile (· ≠ '/')).reverse)

/-- Model of `urllib.parse.urljoin` restricted to the href shapes these
scripts feed it: an absolute `http(s)` href is returned unchanged; any other
href replaces the last path component of the base URL.  Dot-segment
(`../`) normalisation is not modelled, so resolved URLs are abstract names. -/
def urljoin (base href : String) : String :=
  if pyStartsWith href "http://" || pyStartsWith href "https://" then href
  else baseDir base ++ href

/-- Availability branch of `all_books_data.scrape_book` (also
`category_books_data` / `test_single_book_data`):
`value.split('(')[1].split(' ')[0]` when `'('` occurs in the value,
otherwise the literal string `"0"`. -/
def availability_split (value : String) : String :=
  if pyContains value '(' then ((pySplitOn ((pySplitOn value "(").getD 1 "") " ").headD "")
  else "0"

/-- First maximal run of decimal digits, as found by `re.search(r"(\d+)", val)`. -/
def firstDigitRun : List Char → Option String
  | [] => none
  | c :: rest =>
    if c.isDigit then some (String.mk (c :: rest.takeWhile Char.isDigit))
    else firstDigitRun rest

/-- Availability branch of `images_book_data.scrape_book`:
`m.group(1) if m else "0"` for `m = re.search(r"(\d+)", val)`. -/
def availability_regex (val : String) : String :=
  (firstDigitRun val.toList).getD "0"

/-- The four variables filled in by the product-information-table loop. -/
structure SpecFields where
  upc : String
  price_incl_tax : String
  price_excl_tax : String
  availability : String
deriving DecidableEq, Repr

def initSpecFields : SpecFields := ⟨"", "", "", ""⟩

/-- Loop body of `all_books_data.scrape_book` over the table rows:
`cells = row.find_all(['th', 'td'])`; rows with fewer than two cells are
skipped; `cells[0]` is the key and `cells[1]` the value, both `.strip()`ed.
The price branches are `value.replace('£', '')`. -/
def scanRowAllBooks (acc : SpecFields) (row : TableRow) : SpecFields :=
  match row.cells with
  | k :: v :: _ =>
    let key := pyStrip k.2
    let value := pyStrip v.2
    if key = "UPC" then { acc with upc := value }
    else if key = "Price (incl. tax)" then
      { acc with price_incl_tax := pyReplace value "£" "" }
    else if key = "Price (excl. tax)" then
      { acc with price_excl_tax := pyReplace value "£" "" }
    else if key = "Availability" then
      { acc with availability := availability_split value }
    else acc
  | _ => acc

/-- Loop body of `images_book_data.scrape_book` over the table rows:
`th, td = row.find("th"), row.find("td")`; rows lacking either are skipped.
The price branches replace the two-character string `"¬£"` (the source file
is encoding-mangled: bytes C2 AC C2 A3), not the pound sign `"£"`. -/
def scanRowImagesBook (acc : SpecFields) (row : TableRow) : SpecFields :=
  match row.cells.find? (fun c => c.1 = CellTag.th),
        row.cells.find? (fun c => c.1 = CellTag.td) with
  | some th, some td =>
    let key := pyStrip th.2
    let val := pyStrip td.2
    if key = "UPC" then { acc with upc := val }
    else if key = "Price (incl. tax)" then
      { acc with price_incl_tax := pyReplace val "¬£" "" }
    else if key = "Price (excl. tax)" then
      { acc with price_excl_tax := pyReplace val "¬£" "" }
    else if key = "Availability" then
      { acc with availability := availability_regex val }
    else acc
  | _, _ => acc

/-- Record returned by `all_books_data.scrape_book`. -/
structure BookRecordA where
  title : String
  upc : String
  price_with_tax : String
  price_without_tax : String
  availability : String
  description : String
  category : String
  product_url : String
deriving DecidableEq, Repr

/-- Markup-to-record part of `all_books_data.scrape_book` (the network fetch
of the page is separated out as the crawler's product-fetch effect; this is
the pure transformation of the fetched page). -/
def scrape_book_parse (page : ProductPage) (url : Url) : BookRecordA :=
  let title := match page.h1 with | some t => t | none => "N/A"
  let fields := match page.specTable with
    | some rows => rows.foldl scanRowAllBooks initSpecFields
    | none => initSpecFields
  let description :=
    if page.descAnchor then
      match page.descP with | some p => p | none => "Pas de description"
    else "Pas de description"
  let bc_links := page.breadcrumb.filterMap (·.linkText)
  let category := if 3 ≤ bc_links.length then pyStrip (bc_links.getLastD "") else "Unknown"
  { title := title, upc := fields.upc, price_with_tax := fields.price_incl_tax,
    price_without_tax := fields.price_excl_tax, availability := fields.availability,
    description := description, category := category, product_url := url }

/-- Record returned by `images_book_data.scrape_book` (its `image_path` is
produced by the separate `save_image` step, modelled below, and is `""`
until that step runs). -/
structure BookRecordI where
  title : String
  upc : String
  price_incl_tax_gbp : String
  price_excl_tax_gbp : String
  availability : String
  description : String
  category : String
  product_page_url : String
  image_url : String
  image_path : String
deriving DecidableEq, Repr

/-- Markup-to-record part of `images_book_data.scrape_book`: all texts are
taken with `get_text(strip=True)`; the breadcrumb category and default are
as in `all_books_data`; the description defaults to `""`. -/
def scrape_book_parse_images (page : ProductPage) (url : Url) : BookRecordI :=
  let title := match page.h1 with | some t => pyStrip t | none => "N/A"
  let fields := match page.specTable with
    | some rows => rows.foldl scanRowImagesBook initSpecFields
    | none => initSpecFields
  let description :=
    if page.descAnchor then (page.descP.map pyStrip).getD "" else ""
  let bc_links := page.breadcrumb.filterMap (·.linkText)
  let category := if 3 ≤ bc_links.length then pyStrip (bc_links.getLastD "") else "Unknown"
  let image_url := match page.galleryImgSrc with
    | some src => if src = "" then "" else urljoin url src
    | none => ""
  { title := title, upc := fields.upc, price_incl_tax_gbp := fields.price_incl_tax,
    price_excl_tax_gbp := fields.price_excl_tax, availability := fields.availability,
    description := description, category := category, product_page_url := url,
    image_url := image_url, image_path := "" }

/-- Python-dict insertion (insertion order kept, later assignment to an
existing key overwrites in place). -/
def dictInsert : List (String × String) → String → String → List (String × String)
  | [], k, v => [(k, v)]
  | (k', v') :: rest, k, v =>
    if k' = k then (k, v) :: rest else (k', v') :: dictInsert rest k v

/-- Python `dict.get(k, dflt)`. -/
def dictGet : List (String × String) → String → String → String
  | [], _, dflt => dflt
  | (k', v') :: rest, k, dflt => if k' = k then v' else dictGet rest k dflt

/-- The one uncaught failure of `books_data_images.extract_book_data`: when
`soup.select_one("div.product_main h1")` is `None`, the expression
`(... or {}).get_text(strip=True)` raises `AttributeError`. -/
inductive ExtractErr where
  | attributeError : ExtractErr
deriving DecidableEq, Repr

/-- Record returned by `books_data_images.extract_book_data` (that script's
`image_path` is added afterwards by `download_image`). -/
structure BookRecordC where
  title : String
  upc : String
  price_incl_tax_gbp : String
  price_excl_tax_gbp : String
  availability : String
  description : String
  category : String
  product_page_url : String
  image_url : String
deriving DecidableEq, Repr

/-- Markup-to-record part of `books_data_images.extract_book_data`:
`crumbs = [li.get_text(strip=True) for li in soup.select("ul.breadcrumb li")]`,
`category = crumbs[2] if len(crumbs) >= 4 else "Default"`; the spec table is
read into a dict keyed by the `th` text; prices strip the genuine `"£"` and
then `.strip()`; availability is kept as the raw table value; a missing
table contributes no dict entries (the CSS select finds no rows). -/
def extract_book_data_parse (page : ProductPage) (product_url : Url) :
    Except ExtractErr BookRecordC :=
  match page.h1 with
  | none => .error .attributeError
  | some t =>
    let title := pyStrip t
    let crumbs := page.breadcrumb.map (fun c => pyStrip c.text)
    let category := if 4 ≤ crumbs.length then crumbs.getD 2 "" else "Default"
    let specs := (page.specTable.getD []).foldl
      (fun m row =>
        match row.cells.find? (fun c => c.1 = CellTag.th),
              row.cells.find? (fun c => c.1 = CellTag.td) with
        | some th, some td => dictInsert m (pyStrip th.2) (pyStrip td.2)
        | _, _ => m)
      []
    let upc := dictGet specs "UPC" ""
    let price_incl := pyStrip (pyReplace (dictGet specs "Price (incl. tax)" "") "£" "")
    let price_excl := pyStrip (pyReplace (dictGet specs "Price (excl. tax)" "") "£" "")
    let availability := dictGet specs "Availability" ""
    let description :=
      if page.descAnchor then (page.descP.map pyStrip).getD "" else ""
    let img_src := pyStrip (page.galleryImgSrc.getD "")
    let image_url := if img_src = "" then "" else urljoin product_url img_src
    .ok { title := title, upc := upc, price_incl_tax_gbp := price_incl,
          price_excl_tax_gbp := price_excl, availability := availability,
          description := description, category := category,
          product_page_url := product_url, image_url := image_url }

/-- A product page whose price rows carry the raw value `"£51.77"`. -/
def pricePage : ProductPage :=
  { h1 := some "A Book",
    specTable := some [
      ⟨[(CellTag.th, "Price (incl. tax)"), (CellTag.td, "£51.77")]⟩,
      ⟨[(CellTag.th, "Price (excl. tax)"), (CellTag.td, "£51.77")]⟩],
    descAnchor := false, descP := none, breadcrumb := [], galleryImgSrc := none }

/-- C3: on the raw price value `"£51.77"`, `all_books_data.scrape_book` and
`books_data_images.extract_book_data` strip exactly the currency glyph and
yield `"51.77"` as the claim states, but `images_book_data.scrape_book`
(like `test2_image.extract_book_data`) calls `val.replace("¬£", "")` — its
source file is encoding-mangled, bytes C2 AC C2 A3 instead of C2 A3 — so
the pound sign survives and the price field is `"£51.77"`.  The claim
matches the evident intent; the mangled variant's code is the slip. -/
theorem C3_price_strip_glyph :
    (scrape_book_parse pricePage "u").price_with_tax = "51.77" ∧
    (scrape_book_parse pricePage "u").price_without_tax = "51.77" ∧
    (extract_book_data_parse pricePage "u").map (fun r => r.price_incl_tax_gbp) =
      Except.ok "51.77" ∧
    (scrape_book_parse_images pricePage "u").price_incl_tax_gbp = "£51.77" ∧
    (scrape_book_parse_images pricePage "u").price_incl_tax_gbp ≠ "51.77" :=
  ⟨rfl, rfl, rfl, rfl, by decide⟩

/-- A product page whose attribute table holds an `Availability` row with
the given raw value. -/
def availPage (v : String) : ProductPage :=
  { h1 := some "A Book",
    specTable := some [⟨[(CellTag.th, "Availability"), (CellTag.td, v)]⟩],
    descAnchor := false, descP := none, breadcrumb := [], galleryImgSrc := none }

/-- A product page whose attribute table has a `UPC` row but no
`Availability` row. -/
def noAvailabilityPage : ProductPage :=
  { h1 := some "A Book",
    specTable := some [⟨[(CellTag.th, "UPC"), (CellTag.td, "abc")]⟩],
    descAnchor := false, descP := none, breadcrumb := [], galleryImgSrc := none }

/-- C4 is false as stated: when the `Availability` row is fully absent the
extractors leave the field at its initialiser `""`, not `0`. -/
theorem C4_absent_availability_counterexample :
    (scrape_book_parse noAvailabilityPage "u").availability = "" ∧
    (scrape_book_parse noAvailabilityPage "u").availability ≠ "0" ∧
    (scrape_book_parse_images noAvailabilityPage "u").availability = "" :=
  ⟨rfl, by decide, rfl⟩

/-- C4 amended: `all_books_data.scrape_book` turns
`"In stock (19 available)"` into `"19"` and a value without `(` into `"0"`,
and `images_book_data.scrape_book` (first digit run) does the same on these
inputs — but a fully absent `Availability` row leaves the field at the
initialiser `""`, and `books_data_images.extract_book_data` performs no
availability parsing at all, keeping the raw table value. -/
theorem C4_availability_amended :
    (scrape_book_parse (availPage "In stock (19 available)") "u").availability = "19" ∧
    (scrape_book_parse (availPage "In stock") "u").availability = "0" ∧
    (scrape_book_parse noAvailabilityPage "u").availability = "" ∧
    (scrape_book_parse_images (availPage "In stock (19 available)") "u").availability
      = "19" ∧
    (scrape_book_parse_images (availPage "In stock") "u").availability = "0" ∧
    (extract_book_data_parse (availPage "In stock (19 available)") "u").map
      (fun r => r.availability) = Except.ok "In stock (19 available)" :=
  ⟨rfl, rfl, rfl, rfl, rfl, rfl⟩

/-- A product page with a five-entry breadcrumb
`Home > Books > Fiction > Poetry > The Title`. -/
def fiveCrumbPage : ProductPage :=
  { h1 := some "The Title", specTable := none, descAnchor := false, descP := none,
    breadcrumb := [⟨"Home", some "Home"⟩, ⟨"Books", some "Books"⟩,
      ⟨"Fiction", some "Fiction"⟩, ⟨"Poetry", some "Poetry"⟩, ⟨"The Title", none⟩],
    galleryImgSrc := none }

/-- C5 is false as stated: on a breadcrumb with five entries (at least
four), `books_data_images.extract_book_data` takes `crumbs[2]`
(`"Fiction"`), not the second-to-last entry (`"Poetry"`). -/
theorem C5_breadcrumb_counterexample :
    (extract_book_data_parse fiveCrumbPage "u").map (fun r => r.category) =
      Except.ok "Fiction" ∧
    (extract_book_data_parse fiveCrumbPage "u").map (fun r => r.category) ≠
      Except.ok "Poetry" := by
  refine ⟨rfl, ?_⟩
  intro h
  have h2 : (Except.ok "Fiction" : Except ExtractErr String) = Except.ok "Poetry" := h
  injection h2 with h3
  exact absurd h3 (by decide)

theorem extract_category_eq (page : ProductPage) (t : String) (url : Url)
    (hh : page.h1 = some t) :
    (extract_book_data_parse page url).map (fun r => r.category) =
      Except.ok (if 4 ≤ page.breadcrumb.length
        then (page.breadcrumb.map (fun c => pyStrip c.text)).getD 2 ""
        else "Default") := by
  cases page
  simp only at hh
  subst hh
  simp [extract_book_data_parse, Except.map, List.length_map]

theorem scrapeA_category_eq (page : ProductPage) (url : Url) :
    (scrape_book_parse page url).category =
      (if 3 ≤ (page.breadcrumb.filterMap (fun c => c.linkText)).length
        then pyStrip ((page.breadcrumb.filterMap (fun c => c.linkText)).getLastD "")
        else "Unknown") := by
  cases page
  simp [scrape_book_parse]

/-- C5 amended: `books_data_images.extract_book_data` takes the third
breadcrumb entry (`crumbs[2]`) whenever the trail has at least four
entries — which is the second-to-last entry exactly when there are exactly
four — and the fixed label `"Default"` when there are fewer than four;
`all_books_data.scrape_book` takes the last breadcrumb anchor when at
least three anchors exist (the second-to-last entry on the standard
`Home > Books > Category > Title` trail whose last entry is unlinked) and
the fixed label `"Unknown"` when fewer than three anchors exist. -/
theorem C5_breadcrumb_amended :
    (∀ (page : ProductPage) (t : String) (url : Url) (c0 c1 c2 : Crumb)
      (rest : List Crumb), page.h1 = some t →
      page.breadcrumb = c0 :: c1 :: c2 :: rest → rest ≠ [] →
      (extract_book_data_parse page url).map (fun r => r.category) =
        Except.ok (pyStrip c2.text)) ∧
    (∀ (page : ProductPage) (t : String) (url : Url), page.h1 = some t →
      page.breadcrumb.length < 4 →
      (extract_book_data_parse page url).map (fun r => r.category) =
        Except.ok "Default") ∧
    (∀ (page : ProductPage) (url : Url) (c0 c1 c2 c3 : Crumb) (l0 l1 l2 : String),
      page.breadcrumb = [c0, c1, c2, c3] →
      c0.linkText = some l0 → c1.linkText = some l1 → c2.linkText = some l2 →
      c3.linkText = none →
      (scrape_book_parse page url).category = pyStrip l2) ∧
    (∀ (page : ProductPage) (url : Url),
      (page.breadcrumb.filterMap (fun c => c.linkText)).length < 3 →
      (scrape_book_parse page url).category = "Unknown") := by
  refine ⟨?_, ?_, ?_, ?_⟩
  · intro page t url c0 c1 c2 rest hh hbc hrest
    rcases rest with _ | ⟨r0, rest'⟩
    · exact absurd rfl hrest
    · rw [extract_category_eq page t url hh, hbc]
      rw [if_pos (by simp [List.length_map])]
      simp [List.getD_cons_succ, List.getD_cons_zero]
  · intro page t url hh hlen
    rw [extract_category_eq page t url hh]
    rw [if_neg (by omega)]
  · intro page url c0 c1 c2 c3 l0 l1 l2 hbc h0 h1 h2 h3
    rw [scrapeA_category_eq, hbc]
    simp [List.filterMap_cons, h0, h1, h2, h3]
  · intro page url hlt
    rw [scrapeA_category_eq]
    rw [if_neg (by omega)]

/-- A product page with the standard four-entry breadcrumb
`Home > Books > Poetry > T` whose last entry is the unlinked active title. -/
def fourCrumbPage : ProductPage :=
  { h1 := some "T", specTable := none, descAnchor := false, descP := none,
    breadcrumb := [⟨"Home", some "Home"⟩, ⟨"Books", some "Books"⟩,
      ⟨"Poetry", some "Poetry"⟩, ⟨"T", none⟩],
    galleryImgSrc := none }

/-- A product page with a three-entry breadcrumb `Home > Books > T`. -/
def threeCrumbPage : ProductPage :=
  { h1 := some "T", specTable := none, descAnchor := false, descP := none,
    breadcrumb := [⟨"Home", some "Home"⟩, ⟨"Books", some "Books"⟩, ⟨"T", none⟩],
    galleryImgSrc := none }

theorem C5_breadcrumb_amended_witness :
    (extract_book_data_parse fourCrumbPage "u").map (fun r => r.category) =
      Except.ok "Poetry" ∧
    (extract_book_data_parse threeCrumbPage "u").map (fun r => r.category) =
      Except.ok "Default" ∧
    (scrape_book_parse fourCrumbPage "u").category = "Poetry" ∧
    (scrape_book_parse threeCrumbPage "u").category = "Unknown" :=
  ⟨C5_breadcrumb_amended.1 fourCrumbPage "T" "u" ⟨"Home", some "Home"⟩
      ⟨"Books", some "Books"⟩ ⟨"Poetry", some "Poetry"⟩ [⟨"T", none⟩] rfl rfl
      (by decide),
   C5_breadcrumb_amended.2.1 threeCrumbPage "T" "u" rfl (by decide),
   C5_breadcrumb_amended.2.2.1 fourCrumbPage "u" ⟨"Home", some "Home"⟩
      ⟨"Books", some "Books"⟩ ⟨"Poetry", some "Poetry"⟩ ⟨"T", none⟩
      "Home" "Books" "Poetry" rfl rfl rfl rfl rfl,
   C5_breadcrumb_amended.2.2.2 threeCrumbPage "u" (by decide)⟩

abbrev Bytes := List Nat

/-- Filesystem model: association list from paths to file contents. -/
abbrev Fs := List (String × Bytes)

def fsGet : Fs → String → Option Bytes
  | [], _ => none
  | (q, c) :: rest, p => if q = p then some c else fsGet rest p

def fsSet : Fs → String → Bytes → Fs
  | [], p, b => [(p, b)]
  | (q, c) :: rest, p, b =>
    if q = p then (p, b) :: rest else (q, c) :: fsSet rest p b

def fsRemove (fs : Fs) (p : String) : Fs := fs.filter (fun e => ¬ e.1 = p)

theorem fsGet_fsSet_same (fs : Fs) (p : String) (b : Bytes) :
    fsGet (fsSet fs p b) p = some b := by
  induction fs with
  | nil => simp [fsSet, fsGet]
  | cons e rest ih =>
    by_cases h : e.1 = p
    · simp [fsSet, fsGet, h]
    · simp [fsSet, fsGet, h, ih]

theorem fsGet_fsSet_ne (fs : Fs) (p q : String) (b : Bytes) (h : q ≠ p) :
    fsGet (fsSet fs p b) q = fsGet fs q := by
  induction fs with
  | nil => simp [fsSet, fsGet, h, Ne.symm h]
  | cons e rest ih =>
    by_cases he : e.1 = p
    · simp [fsSet, fsGet, he, h, Ne.symm h]
    · simp [fsSet, fsGet, he, ih]

/-- A response to an image GET: either a transport-level failure (the
request call itself raises, e.g. `ConnectionError`) or a response with a
status code, a content type and a streamed body.  `truncated = true` means
the stream raises after delivering the listed chunks, so exactly their
concatenation reached the file being written. -/
inductive ImgResp where
  | transportErr : ImgResp
  | resp (status : Nat) (contentType : String) (chunks : List Bytes)
      (truncated : Bool) : ImgResp

/-- `requests.Response.raise_for_status()` raises exactly for 4xx/5xx. -/
def isHttpError (status : Nat) : Bool :=
  decide (400 ≤ status) && decide (status < 600)

def IMAGES_DIR : String := "books_images"

/-- Destination path computed by `books_data_images.download_image`:
folder `os.path.join(IMAGES_DIR, cleaner(category))`, file name
`cleaner(upc or title or "image") + ".jpg"`. -/
def download_image_dest (category upc title : String) : String :=
  IMAGES_DIR ++ "/" ++ cleaner (some category) ++ "/" ++
    cleaner (some (pyOr upc (pyOr title "image"))) ++ ".jpg"

/-- Fetch-and-write part of `books_data_images.download_image`, reached when
no non-empty file exists at `dest`: `raise_for_status`, stream the body into
`dest + ".part"`, then `os.replace` it onto `dest`; the surrounding
`try/except` turns every raised exception into the empty return path (a
truncated stream leaves the `.part` file behind but never touches `dest`).
The result triple is (returned path, filesystem after, network fetches). -/
def download_image_fetch (net : Url → ImgResp) (fs : Fs) (image_url dest : String) :
    String × Fs × Nat :=
  match net image_url with
  | .transportErr => ("", fs, 1)
  | .resp st _ chunks trunc =>
    if isHttpError st then ("", fs, 1)
    else
      let written := chunks.flatten
      let fs1 := fsSet fs (dest ++ ".part") written
      if trunc then ("", fs1, 1)
      else (dest, fsSet (fsRemove fs1 (dest ++ ".part")) dest written, 1)

/-- `books_data_images.download_image`: empty-URL short-circuit, then the
skip-if-present-and-non-empty cache check, then the guarded download.  The
`referer_url` only feeds the request headers; the modelled response is a
function of the URL. -/
def download_image (net : Url → ImgResp) (fs : Fs)
    (image_url category upc title referer_url : String) : String × Fs × Nat :=
  if image_url = "" then ("", fs, 0)
  else
    match fsGet fs (download_image_dest category upc title) with
    | some bytes =>
      if 0 < bytes.length then (download_image_dest category upc title, fs, 0)
      else download_image_fetch net fs image_url (download_image_dest category upc title)
    | none => download_image_fetch net fs image_url (download_image_dest category upc title)

/-- Extension whitelist of `images_book_data.save_image`. -/
def knownImageExts : List String := [".jpg", ".jpeg", ".png", ".gif", ".webp"]

/-- Longest suffix starting at the last dot of the list, if any dot occurs. -/
def lastDotSuffix : List Char → Option (List Char)
  | [] => none
  | c :: rest =>
    match lastDotSuffix rest with
    | some suf => some suf
    | none => if c = '.' then some (c :: rest) else none

/-- `os.path.splitext(basename)[1]` for a slash-free basename: the suffix
from the last dot on, except that the leading dots of the name never start
an extension. -/
def splitextExt (s : String) : String :=
  match lastDotSuffix (s.toList.drop ((s.toList.takeWhile (fun c => c = '.')).length)) with
  | some suf => String.mk suf
  | none => ""

/-- Python `str.lower()` (ASCII suffices for the extensions involved). -/
def pyToLower (s : String) : String := String.mk (s.toList.map Char.toLower)

/-- Extension chosen by `images_book_data.save_image`: from the URL path
(before any query string), lower-cased, defaulting to `".jpg"` when not in
the whitelist. -/
def save_image_ext (image_url : String) : String :=
  let url_path := (pySplitOn image_url "?").headD ""
  let base := (pySplitOn url_path "/").getLastD ""
  let ext := pyToLower (splitextExt base)
  if ext ∈ knownImageExts then ext else ".jpg"

/-- Destination path computed by `images_book_data.save_image`:
`IMAGES_DIR/sanitize(category or "Unknown")/sanitize(upc or title or "image") + ext`. -/
def save_image_dest (image_url category upc title : String) : String :=
  IMAGES_DIR ++ "/" ++ sanitize (some (pyOr category "Unknown")) ++ "/" ++
    sanitize (some (pyOr upc (pyOr title "image"))) ++ save_image_ext image_url

/-- Exceptions that can escape `images_book_data.save_image` (it has no
catch-all handler: only `requests.HTTPError` from the first attempt is
caught, to trigger the one retry). -/
inductive SaveErr where
  | transport : SaveErr
  | httpStatus (code : Nat) : SaveErr
  | stream : SaveErr
deriving DecidableEq, Repr

/-- `images_book_data.save_image`.  The network is a function of the URL and
of whether the `Referer` header was attached (only the retry attaches it,
and only when a referer was supplied).  The body is streamed DIRECTLY into
the destination path — no temporary file — and the skip check is bare
`os.path.exists` (no size check).  The result triple is
(return value or escaped exception, filesystem after, network fetches). -/
def save_image (net : Url → Bool → ImgResp) (fs : Fs)
    (image_url category upc title : String) (referer_url : Option String) :
    Except SaveErr String × Fs × Nat :=
  if image_url = "" then (.ok "", fs, 0)
  else
    let dest := save_image_dest image_url category upc title
    if (fsGet fs dest).isSome then (.ok dest, fs, 0)
    else
      match net image_url false with
      | .transportErr => (.error .transport, fs, 1)
      | .resp st _ chunks trunc =>
        if isHttpError st then
          match net image_url referer_url.isSome with
          | .transportErr => (.error .transport, fs, 2)
          | .resp st2 _ chunks2 trunc2 =>
            if isHttpError st2 then (.error (.httpStatus st2), fs, 2)
            else if trunc2 then (.error .stream, fsSet fs dest chunks2.flatten, 2)
            else (.ok dest, fsSet fs dest chunks2.flatten, 2)
        else if trunc then (.error .stream, fsSet fs dest chunks.flatten, 1)
        else (.ok dest, fsSet fs dest chunks.flatten, 1)

theorem ne_append_part (s : String) : s ≠ s ++ ".part" := by
  intro h
  have h2 := congrArg String.length h
  rw [String.length_append] at h2
  have h5 : (".part" : String).length = 5 := rfl
  rw [h5] at h2
  omega

/-- Network stub whose every response is a success whose stream dies after
delivering the bytes `[7, 7]`. -/
def truncNet : Url → Bool → ImgResp := fun _ _ => ImgResp.resp 200 "image/jpeg" [[7, 7]] true

/-- C7 is false as stated: `images_book_data.save_image` streams the body
directly into the destination path, so when the transfer fails mid-body the
partial file `[7, 7]` is left observable at the final destination path and
the failure escapes as an exception instead of returning an empty path. -/
theorem C7_partial_file_counterexample :
    (save_image truncNet [] "http://img.example/covers/a.jpg" "Poetry" "u1" "T"
      (some "http://page")).1 = Except.error SaveErr.stream ∧
    fsGet (save_image truncNet [] "http://img.example/covers/a.jpg" "Poetry" "u1" "T"
      (some "http://page")).2.1 "books_images/Poetry/u1.jpg" = some [7, 7] :=
  ⟨rfl, rfl⟩

/-- C7 amended: the write-to-temporary-then-rename discipline holds for
`books_data_images.download_image` (and `test2_image.save_image`, which
shares it), not for `images_book_data.save_image`: for `download_image`,
whatever the network does, the final destination path afterwards holds
either exactly what it held before the call or the complete downloaded
body — never a truncation — and the returned path is `""` or the
destination path. -/
theorem C7_download_image_atomic (net : Url → ImgResp) (fs : Fs)
    (image_url category upc title referer_url : String) :
    ((download_image net fs image_url category upc title referer_url).1 = "" ∨
      (download_image net fs image_url category upc title referer_url).1 =
        download_image_dest category upc title) ∧
    (fsGet (download_image net fs image_url category upc title referer_url).2.1
        (download_image_dest category upc title) =
      fsGet fs (download_image_dest category upc title) ∨
      ∃ st ct chunks, net image_url = ImgResp.resp st ct chunks false ∧
        isHttpError st = false ∧
        fsGet (download_image net fs image_url category upc title referer_url).2.1
          (download_image_dest category upc title) = some chunks.flatten) := by
  by_cases hiu : image_url = ""
  · refine ⟨Or.inl ?_, Or.inl ?_⟩ <;> simp [download_image, hiu]
  · have key : download_image net fs image_url category upc title referer_url =
        download_image_fetch net fs image_url (download_image_dest category upc title) ∨
        download_image net fs image_url category upc title referer_url =
          (download_image_dest category upc title, fs, 0) := by
      unfold download_image
      rw [if_neg hiu]
      cases hfs : fsGet fs (download_image_dest category upc title) with
      | none => exact Or.inl rfl
      | some bytes =>
        by_cases hb : 0 < bytes.length
        · exact Or.inr (by simp [hb])
        · exact Or.inl (by simp [hb])
    rcases key with hmain | hcached
    · rw [hmain]
      cases hnet : net image_url with
      | transportErr =>
        have e0 : download_image_fetch net fs image_url
            (download_image_dest category upc title) = ("", fs, 1) := by
          simp [download_image_fetch, hnet]
        rw [e0]
        exact ⟨Or.inl rfl, Or.inl rfl⟩
      | resp st ct chunks trunc =>
        cases hhttp : isHttpError st with
        | true =>
          have e1 : download_image_fetch net fs image_url
              (download_image_dest category upc title) = ("", fs, 1) := by
            simp [download_image_fetch, hnet, hhttp]
          rw [e1]
          exact ⟨Or.inl rfl, Or.inl rfl⟩
        | false =>
          cases trunc with
          | true =>
            have e2 : download_image_fetch net fs image_url
                (download_image_dest category upc title) =
                ("", fsSet fs (download_image_dest category upc title ++ ".part")
                  chunks.flatten, 1) := by
              simp [download_image_fetch, hnet, hhttp]
            rw [e2]
            exact ⟨Or.inl rfl,
              Or.inl (fsGet_fsSet_ne fs _ _ _ (ne_append_part _))⟩
          | false =>
            have e3 : download_image_fetch net fs image_url
                (download_image_dest category upc title) =
                (download_image_dest category upc title,
                  fsSet (fsRemove (fsSet fs
                      (download_image_dest category upc title ++ ".part") chunks.flatten)
                    (download_image_dest category upc title ++ ".part"))
                    (download_image_dest category upc title) chunks.flatten, 1) := by
              simp [download_image_fetch, hnet, hhttp]
            rw [e3]
            exact ⟨Or.inr rfl,
              Or.inr ⟨st, ct, chunks, rfl, hhttp, fsGet_fsSet_same _ _ _⟩⟩
    · rw [hcached]
      exact ⟨Or.inr rfl, Or.inl rfl⟩

/-- Network stub always answering success with body `[1, 2]`. -/
def okNet : Url → ImgResp := fun _ => ImgResp.resp 200 "image/jpeg" [[1, 2]] false

/-- A filesystem already holding a non-empty file at the destination
`download_image` computes for category `"Poetry"`, upc `"u1"`. -/
def prePopulatedFs : Fs := [("books_images/Poetry/u1.jpg", [9, 9, 9])]

/-- C6 is false as stated: with a non-empty file already at the computed
destination, invoking `download_image` twice with the same arguments
performs zero network fetches (both calls are cache hits), not exactly
one. -/
theorem C6_idempotence_counterexample :
    fsGet prePopulatedFs (download_image_dest "Poetry" "u1" "T") = some [9, 9, 9] ∧
    (download_image okNet prePopulatedFs "http://img.example/a.jpg" "Poetry" "u1" "T"
        "http://page").2.2 +
      (download_image okNet
          (download_image okNet prePopulatedFs "http://img.example/a.jpg" "Poetry" "u1"
            "T" "http://page").2.1
          "http://img.example/a.jpg" "Poetry" "u1" "T" "http://page").2.2 = 0 ∧
    (0 : Nat) ≠ 1 :=
  ⟨rfl, rfl, by decide⟩

/-- C6 amended: (i) whenever a non-empty file exists at the computed
destination, `books_data_images.download_image` performs no fetch and
returns that path with the filesystem unchanged; (ii) likewise
`images_book_data.save_image` whenever a file exists there at all (it has
no size check); (iii) starting from an absent destination, when the fetch
succeeds untruncated with a non-empty body, two invocations of
`download_image` with the same arguments perform exactly one network fetch
in total (the second call is a cache hit) and both return the destination
path.  With an already-populated destination the two calls perform zero
fetches, not one (see the counterexample). -/
theorem C6_asset_fetcher_idempotent :
    (∀ (net : Url → ImgResp) (fs : Fs)
      (image_url category upc title referer_url : String) (b : Bytes),
      image_url ≠ "" →
      fsGet fs (download_image_dest category upc title) = some b → 0 < b.length →
      download_image net fs image_url category upc title referer_url =
        (download_image_dest category upc title, fs, 0)) ∧
    (∀ (net : Url → Bool → ImgResp) (fs : Fs)
      (image_url category upc title : String) (referer_url : Option String),
      image_url ≠ "" →
      (fsGet fs (save_image_dest image_url category upc title)).isSome = true →
      save_image net fs image_url category upc title referer_url =
        (Except.ok (save_image_dest image_url category upc title), fs, 0)) ∧
    (∀ (net : Url → ImgResp) (fs : Fs)
      (image_url category upc title referer_url : String)
      (st : Nat) (ct : String) (chunks : List Bytes),
      image_url ≠ "" →
      fsGet fs (download_image_dest category upc title) = none →
      net image_url = ImgResp.resp st ct chunks false →
      isHttpError st = false → chunks.flatten ≠ [] →
      (download_image net fs image_url category upc title referer_url).2.2 +
        (download_image net
            (download_image net fs image_url category upc title referer_url).2.1
            image_url category upc title referer_url).2.2 = 1 ∧
      (download_image net fs image_url category upc title referer_url).1 =
        download_image_dest category upc title ∧
      (download_image net
          (download_image net fs image_url category upc title referer_url).2.1
          image_url category upc title referer_url).1 =
        download_image_dest category upc title) := by
  refine ⟨?_, ?_, ?_⟩
  · intro net fs image_url category upc title referer_url b hiu hfs hb
    simp [download_image, hiu, hfs, hb]
  · intro net fs image_url category upc title referer_url hiu hsome
    simp [save_image, hiu, hsome]
  · intro net fs image_url category upc title referer_url st ct chunks hiu hfs hnet
      hhttp hne
    have h1 : download_image net fs image_url category upc title referer_url =
        (download_image_dest category upc title,
          fsSet (fsRemove (fsSet fs
              (download_image_dest category upc title ++ ".part") chunks.flatten)
            (download_image_dest category upc title ++ ".part"))
            (download_image_dest category upc title) chunks.flatten, 1) := by
      simp [download_image, hiu, hfs, download_image_fetch, hnet, hhttp]
    have h2 : fsGet (download_image net fs image_url category upc title
        referer_url).2.1 (download_image_dest category upc title) =
        some chunks.flatten := by
      rw [h1]
      exact fsGet_fsSet_same _ _ _
    have h3 : download_image net
        (download_image net fs image_url category upc title referer_url).2.1
        image_url category upc title referer_url =
        (download_image_dest category upc title,
          (download_image net fs image_url category upc title referer_url).2.1, 0) := by
      have hlen : 0 < chunks.flatten.length := List.length_pos.mpr hne
      generalize hgen :
        (download_image net fs image_url category upc title referer_url).2.1 = fs1 at h2 ⊢
      simp [download_image, hiu, h2, hlen]
      intro hzero
      rw [List.length_flatten] at hlen
      omega
    refine ⟨?_, ?_, ?_⟩
    · rw [h3, h1]
      rfl
    · rw [h1]
    · rw [h3]

/-- Referer-aware network stub always answering success with body `[1, 2]`. -/
def okNet2 : Url → Bool → ImgResp := fun _ _ => ImgResp.resp 200 "image/jpeg" [[1, 2]] false

theorem C6_asset_fetcher_idempotent_witness :
    download_image okNet prePopulatedFs "http://img.example/a.jpg" "Poetry" "u1" "T"
        "http://page" = ("books_images/Poetry/u1.jpg", prePopulatedFs, 0) ∧
    save_image okNet2 prePopulatedFs "http://img.example/a.jpg" "Poetry" "u1" "T"
        (some "http://page") =
      (Except.ok "books_images/Poetry/u1.jpg", prePopulatedFs, 0) ∧
    ((download_image okNet [] "http://img.example/a.jpg" "Poetry" "u1" "T"
        "http://page").2.2 +
      (download_image okNet
          (download_image okNet [] "http://img.example/a.jpg" "Poetry" "u1" "T"
            "http://page").2.1
          "http://img.example/a.jpg" "Poetry" "u1" "T" "http://page").2.2 = 1) :=
  ⟨C6_asset_fetcher_idempotent.1 okNet prePopulatedFs _ _ _ _ _ [9, 9, 9]
      (by decide) rfl (by decide),
   C6_asset_fetcher_idempotent.2.1 okNet2 prePopulatedFs _ _ _ _ _
      (by decide) rfl,
   (C6_asset_fetcher_idempotent.2.2 okNet [] _ _ _ _ _ 200 "image/jpeg" [[1, 2]]
      (by decide) rfl rfl rfl (by decide)).1⟩

/-- A listing page as the Lister functions query it: the hrefs of
`article.product_pod h3 a` (in order; pods lacking an href are already
skipped by the scripts' guards) and the href of the `li.next a` pagination
affordance when present. -/
structure ListingHtml where
  productHrefs : List String
  nextHref : Option String

/-- Outcome of an HTTP GET of a listing page: a transport-level failure
(the `requests.get` / `SESSION.get` call itself raises) or a response
carrying a status code and a parsed document — error pages parse like any
other document, typically containing no product pods. -/
inductive ListResp where
  | transportErr : ListResp
  | resp (status : Nat) (html : ListingHtml) : ListResp

inductive FetchErr where
  | transport : FetchErr
  | httpStatus (code : Nat) : FetchErr
deriving DecidableEq, Repr

/-- `all_books_data.get_book_urls_from_page`: a plain `requests.get` with NO
`raise_for_status`, so only a transport-level failure raises; the body is
parsed whatever the status code, and each href is resolved against the
listing URL. -/
def get_book_urls_from_page (net : Url → ListResp) (list_url : Url) :
    Except FetchErr (List Url) :=
  match net list_url with
  | .transportErr => .error .transport
  | .resp _ html => .ok (html.productHrefs.map (urljoin list_url))

/-- `all_books_data.get_next_page_url`: same fetch discipline (no
`raise_for_status`); yields the resolved next-page URL, or `None` when the
`li.next` affordance is absent — which is not an error. -/
def get_next_page_url (net : Url → ListResp) (current_url : Url) :
    Except FetchErr (Option Url) :=
  match net current_url with
  | .transportErr => .error .transport
  | .resp _ html => .ok (html.nextHref.map (urljoin current_url))

/-- `books_data_images.get_soup` (and the fetch prologue of
`images_book_data.get_book_urls_from_page` / `get_next_page_url`):
`SESSION.get` followed by `raise_for_status()`, so transport failures and
4xx/5xx statuses both raise. -/
def get_soup (net : Url → ListResp) (url : Url) : Except FetchErr ListingHtml :=
  match net url with
  | .transportErr => .error .transport
  | .resp st html => if isHttpError st then .error (.httpStatus st) else .ok html

/-- `books_data_images.parse_listing_product_links` =
`images_book_data.get_book_urls_from_page`: product links via `get_soup`. -/
def parse_listing_product_links (net : Url → ListResp) (listing_url : Url) :
    Except FetchErr (List Url) :=
  (get_soup net listing_url).map
    (fun html => html.productHrefs.map (urljoin listing_url))

/-- `books_data_images.get_next_page_url` (and `images_book_data`'s):
via `get_soup`; a missing `li.next` affordance yields `None`, not an
error. -/
def get_next_page_url_soup (net : Url → ListResp) (url : Url) :
    Except FetchErr (Option Url) :=
  (get_soup net url).map (fun html => html.nextHref.map (urljoin url))

/-- Network stub: every URL answers `404 Not Found` with an error document
containing no product pods and no pagination. -/
def err404Net : Url → ListResp := fun _ => ListResp.resp 404 ⟨[], none⟩

/-- C8 is false as stated for `all_books_data.get_book_urls_from_page`: a
`404` listing fetch is silently absorbed into an empty product list — the
function has no `raise_for_status`, parses the error document, finds no
pods and returns `[]` without any failure propagating. -/
theorem C8_status_absorbed_counterexample :
    get_book_urls_from_page err404Net "http://site/listing.html" = Except.ok [] :=
  rfl

/-- C8 amended: transport-level failures propagate from every Lister
variant, and HTTP-status failures propagate from the `get_soup`-based
variants (`books_data_images`, `images_book_data`); but in
`all_books_data` a non-success status is absorbed — the error document is
parsed and its pods returned (an empty list for a podless error page).  A
missing pagination affordance is `None`, not an error, in all variants. -/
theorem C8_lister_failure_amended :
    (∀ (net : Url → ListResp) (u : Url), net u = ListResp.transportErr →
      get_book_urls_from_page net u = .error .transport ∧
      get_next_page_url net u = .error .transport ∧
      get_soup net u = .error .transport) ∧
    (∀ (net : Url → ListResp) (u : Url) (st : Nat) (html : ListingHtml),
      net u = ListResp.resp st html → isHttpError st = true →
      parse_listing_product_links net u = .error (.httpStatus st) ∧
      get_next_page_url_soup net u = .error (.httpStatus st)) ∧
    (∀ (net : Url → ListResp) (u : Url) (st : Nat) (html : ListingHtml),
      net u = ListResp.resp st html →
      get_book_urls_from_page net u = .ok (html.productHrefs.map (urljoin u))) ∧
    (∀ (net : Url → ListResp) (u : Url) (st : Nat) (html : ListingHtml),
      net u = ListResp.resp st html → isHttpError st = false →
      html.nextHref = none →
      get_next_page_url net u = .ok none ∧
      get_next_page_url_soup net u = .ok none) := by
  refine ⟨?_, ?_, ?_, ?_⟩
  · intro net u h
    exact ⟨by simp [get_book_urls_from_page, h],
      by simp [get_next_page_url, h], by simp [get_soup, h]⟩
  · intro net u st html h hst
    exact ⟨by simp [parse_listing_product_links, get_soup, h, hst, Except.map],
      by simp [get_next_page_url_soup, get_soup, h, hst, Except.map]⟩
  · intro net u st html h
    simp [get_book_urls_from_page, h]
  · intro net u st html h hst hnone
    exact ⟨by simp [get_next_page_url, h, hnone],
      by simp [get_next_page_url_soup, get_soup, h, hst, hnone, Except.map]⟩

/-- Network stub: every request fails at the transport level. -/
def transportFailNet : Url → ListResp := fun _ => ListResp.transportErr

/-- Network stub: every URL answers `200` with one product pod and no
pagination affordance. -/
def lastPageNet : Url → ListResp :=
  fun _ => ListResp.resp 200 ⟨["prod_1/index.html"], none⟩

theorem C8_lister_failure_amended_witness :
    get_book_urls_from_page transportFailNet "http://site/l.html" =
      .error .transport ∧
    parse_listing_product_links err404Net "http://site/l.html" =
      .error (.httpStatus 404) ∧
    get_book_urls_from_page err404Net "http://site/l.html" = .ok [] ∧
    get_next_page_url lastPageNet "http://site/l.html" = .ok none ∧
    get_next_page_url_soup lastPageNet "http://site/l.html" = .ok none :=
  ⟨(C8_lister_failure_amended.1 transportFailNet "http://site/l.html" rfl).1,
   (C8_lister_failure_amended.2.1 err404Net "http://site/l.html" 404 ⟨[], none⟩
      rfl rfl).1,
   C8_lister_failure_amended.2.2.1 err404Net "http://site/l.html" 404 ⟨[], none⟩ rfl,
   (C8_lister_failure_amended.2.2.2 lastPageNet "http://site/l.html" 200
      ⟨["prod_1/index.html"], none⟩ rfl rfl rfl).1,
   (C8_lister_failure_amended.2.2.2 lastPageNet "http://site/l.html" 200
      ⟨["prod_1/index.html"], none⟩ rfl rfl rfl).2⟩

/-- `by_category.setdefault(cat, []).append(data)`: category insertion
order preserved, rows appended in discovery order within a category. -/
def insertByCat {ρ : Type} : List (String × List ρ) → String → ρ → List (String × List ρ)
  | [], k, v => [(k, [v])]
  | (k', vs) :: rest, k, v =>
    if k' = k then (k', vs ++ [v]) :: rest else (k', vs) :: insertByCat rest k v

/-- Per-product loop of `all_books_data.scrape_all_books` and
`images_book_data.scrape_all_books`: every product URL is scraped inside a
`try/except` that logs the failure and continues with the next locator;
successes are grouped under `data.get('category', default) or default`
(the record always carries a category key, so only the `or` matters).  The
crawler is parameterised over the per-product outcome `pnet` — the
composition of the product fetch and the extractor — and over the record
type.  Returns the updated groups plus the list of failed product URLs
(the logged errors). -/
def processBooks {ρ ε : Type} (default : String) (catOf : ρ → String)
    (pnet : Url → Except ε ρ) :
    List Url → List (String × List ρ) → List Url →
      List (String × List ρ) × List Url
  | [], acc, errs => (acc, errs)
  | u :: rest, acc, errs =>
    match pnet u with
    | .ok d => processBooks default catOf pnet rest
        (insertByCat acc (pyOr (catOf d) default) d) errs
    | .error _ => processBooks default catOf pnet rest acc (errs ++ [u])

/-- Outcome of the per-product loop of `books_data_images.scrape_all`,
which has NO `try/except`: the first extractor failure aborts the loop
(and, below, the whole crawl), keeping only what accumulated before it. -/
inductive CProcRes (ρ : Type) where
  | done (acc : List (String × List ρ)) : CProcRes ρ
  | crashed (acc : List (String × List ρ)) : CProcRes ρ
deriving DecidableEq

/-- Per-product loop of `books_data_images.scrape_all` (grouping default
`"Default"`); `pnet`'s successful value is the record after the
`download_image` step, which absorbs its own failures and never raises. -/
def processBooksC {ρ ε : Type} (catOf : ρ → String) (pnet : Url → Except ε ρ) :
    List Url → List (String × List ρ) → CProcRes ρ
  | [], acc => .done acc
  | u :: rest, acc =>
    match pnet u with
    | .ok d => processBooksC catOf pnet rest
        (insertByCat acc (pyOr (catOf d) "Default") d)
    | .error _ => .crashed acc

/-- Result of a crawl.  `trace` instruments the network effect: the
listing-page URLs fetched, in order (a page is fetched once by the
product-link helper and once more by the next-page helper).  `crashed`
means an uncaught exception escaped the crawl function; `outOfFuel` is the
embedding's artificial bound on the `while` loop and is never reached in
the theorems below. -/
inductive CrawlOut (ρ : Type) where
  | ok (byCategory : List (String × List ρ)) (errors : List Url)
      (trace : List Url) : CrawlOut ρ
  | crashed (byCategory : List (String × List ρ)) (trace : List Url) : CrawlOut ρ
  | outOfFuel : CrawlOut ρ
deriving DecidableEq

/-- `all_books_data.scrape_all_books` budget test, checked at the TOP of
the loop: `max_pages is not None and page_number > max_pages`. -/
def budgetExceededA (max_pages : Option Nat) (page_number : Nat) : Bool :=
  match max_pages with
  | some m => decide (m < page_number)
  | none => false

/-- `images_book_data.scrape_all_books` / `books_data_images.scrape_all`
budget test, checked AFTER the page's products and BEFORE the next-page
fetch: `max_pages is not None and page_number >= max_pages`. -/
def budgetReachedB (max_pages : Option Nat) (page_number : Nat) : Bool :=
  match max_pages with
  | some m => decide (m ≤ page_number)
  | none => false

/-- Loop of `all_books_data.scrape_all_books`: budget checked first
(`page_number > max_pages` breaks), listing fetched WITHOUT status check
(a raise there escapes the function: `crashed`), every product processed
with per-product catching, then the next page is resolved by re-fetching
the current page (again, a raise escapes). -/
def scrape_all_books_loopA {ρ ε : Type} (lnet : Url → ListResp)
    (pnet : Url → Except ε ρ) (catOf : ρ → String) (max_pages : Option Nat) :
    Nat → Option Url → Nat → List (String × List ρ) → List Url → List Url →
      CrawlOut ρ
  | _, none, _, acc, errs, tr => .ok acc errs tr
  | 0, some _, _, _, _, _ => .outOfFuel
  | fuel+1, some u, page_number, acc, errs, tr =>
    if budgetExceededA max_pages page_number then .ok acc errs tr
    else
      match get_book_urls_from_page lnet u with
      | .error _ => .crashed acc (tr ++ [u])
      | .ok book_urls =>
        match processBooks "Unknown" catOf pnet book_urls acc errs with
        | (acc', errs') =>
          match get_next_page_url lnet u with
          | .error _ => .crashed acc' (tr ++ [u, u])
          | .ok next => scrape_all_books_loopA lnet pnet catOf max_pages fuel
              next (page_number + 1) acc' errs' (tr ++ [u, u])

/-- `all_books_data.scrape_all_books` (the `delay` only sleeps and is not
modelled). -/
def scrape_all_books_A {ρ ε : Type} (lnet : Url → ListResp)
    (pnet : Url → Except ε ρ) (catOf : ρ → String) (max_pages : Option Nat)
    (fuel : Nat) (start_url : Url) : CrawlOut ρ :=
  scrape_all_books_loopA lnet pnet catOf max_pages fuel (some start_url) 1 [] [] []

/-- Loop of `images_book_data.scrape_all_books`: the listing fetch is
wrapped in `try/except` (a failure degrades to zero product links), each
product is caught individually, the budget (`page_number >= max_pages`)
breaks AFTER the page's products and BEFORE any next-page fetch, and the
next-page resolution failure degrades to "no next page".  Nothing can
escape this variant. -/
def scrape_all_books_loopB {ρ ε : Type} (lnet : Url → ListResp)
    (pnet : Url → Except ε ρ) (catOf : ρ → String) (max_pages : Option Nat) :
    Nat → Option Url → Nat → List (String × List ρ) → List Url → List Url →
      CrawlOut ρ
  | _, none, _, acc, errs, tr => .ok acc errs tr
  | 0, some _, _, _, _, _ => .outOfFuel
  | fuel+1, some u, page_number, acc, errs, tr =>
    match processBooks "Unknown" catOf pnet
        (match parse_listing_product_links lnet u with
          | .ok l => l
          | .error _ => []) acc errs with
    | (acc', errs') =>
      if budgetReachedB max_pages page_number then .ok acc' errs' (tr ++ [u])
      else
        match (match get_next_page_url_soup lnet u with
            | .ok o => o
            | .error _ => none) with
        | some nu => scrape_all_books_loopB lnet pnet catOf max_pages fuel
            (some nu) (page_number + 1) acc' errs' (tr ++ [u, u])
        | none => .ok acc' errs' (tr ++ [u, u])

/-- `images_book_data.scrape_all_books`. -/
def scrape_all_books_B {ρ ε : Type} (lnet : Url → ListResp)
    (pnet : Url → Except ε ρ) (catOf : ρ → String) (max_pages : Option Nat)
    (fuel : Nat) (start_url : Url) : CrawlOut ρ :=
  scrape_all_books_loopB lnet pnet catOf max_pages fuel (some start_url) 1 [] [] []

/-- Loop of `books_data_images.scrape_all`: NO `try/except` anywhere — a
listing-fetch failure, a per-product extractor failure or a next-page
failure each escapes the function (`crashed`), keeping only what
accumulated before it; the budget is checked after the page's products. -/
def scrape_all_loopC {ρ ε : Type} (lnet : Url → ListResp)
    (pnet : Url → Except ε ρ) (catOf : ρ → String) (max_pages : Option Nat) :
    Nat → Option Url → Nat → List (String × List ρ) → List Url → CrawlOut ρ
  | _, none, _, acc, tr => .ok acc [] tr
  | 0, some _, _, _, _ => .outOfFuel
  | fuel+1, some u, page_no, acc, tr =>
    match parse_listing_product_links lnet u with
    | .error _ => .crashed acc (tr ++ [u])
    | .ok links =>
      match processBooksC catOf pnet links acc with
      | .crashed acc' => .crashed acc' (tr ++ [u])
      | .done acc' =>
        if budgetReachedB max_pages page_no then .ok acc' [] (tr ++ [u])
        else
          match get_next_page_url_soup lnet u with
          | .error _ => .crashed acc' (tr ++ [u, u])
          | .ok (some nu) => scrape_all_loopC lnet pnet catOf max_pages fuel
              (some nu) (page_no + 1) acc' (tr ++ [u, u])
          | .ok none => .ok acc' [] (tr ++ [u, u])

/-- `books_data_images.scrape_all`. -/
def scrape_all_C {ρ ε : Type} (lnet : Url → ListResp)
    (pnet : Url → Except ε ρ) (catOf : ρ → String) (max_pages : Option Nat)
    (fuel : Nat) (start_url : Url) : CrawlOut ρ :=
  scrape_all_loopC lnet pnet catOf max_pages fuel (some start_url) 1 [] []

/-- Listing stub: the start page carries three product hrefs and no next
link; anything else is a 404 error page. -/
def listNetC1 : Url → ListResp := fun u =>
  if u = "http://site/page-1.html" then
    ListResp.resp 200 ⟨["b1.html", "b2.html", "b3.html"], none⟩
  else ListResp.resp 404 ⟨[], none⟩

/-- Product stub: the second product's extraction raises; the others
succeed with category `"Fiction"`. -/
def prodNetC1 : Url → Except String (String × String) := fun u =>
  if u = "http://site/b2.html" then .error "boom"
  else .ok ("Fiction", u)

/-- C1 is false as stated for `books_data_images.scrape_all`: its product
loop has no `try/except`, so the failure on the second of three products
aborts the whole crawl — the result is an escaped exception whose
accumulated groups contain only the first product, and the third product
(which would have succeeded) was never processed. -/
theorem C1_abort_counterexample :
    scrape_all_C listNetC1 prodNetC1 Prod.fst none 5 "http://site/page-1.html" =
      CrawlOut.crashed [("Fiction", [("Fiction", "http://site/b1.html")])]
        ["http://site/page-1.html"] ∧
    prodNetC1 "http://site/b3.html" = Except.ok ("Fiction", "http://site/b3.html") ∧
    ("Fiction", "http://site/b3.html") ∉
      (List.map Prod.snd [("Fiction", [("Fiction", "http://site/b1.html")])]).flatten :=
  ⟨rfl, rfl, by decide⟩

/-- C1 amended: in `all_books_data.scrape_all_books` and
`images_book_data.scrape_all_books` a failing product is recorded in the
error log and every locator before and after it is still processed (the
loop over `pre ++ bad :: post` equals the loop over `post` continued from
the state after `pre`, with `bad` appended to the errors); in
`books_data_images.scrape_all` the first extractor failure aborts the
per-product loop and the whole crawl, discarding the locators after it. -/
theorem C1_per_product_failure_amended :
    (∀ (ρ ε : Type) (default : String) (catOf : ρ → String)
      (pnet : Url → Except ε ρ) (pre post : List Url) (bad : Url) (e : ε)
      (acc : List (String × List ρ)) (errs : List Url),
      pnet bad = .error e →
      processBooks default catOf pnet (pre ++ bad :: post) acc errs =
        processBooks default catOf pnet post
          (processBooks default catOf pnet pre acc errs).1
          ((processBooks default catOf pnet pre acc errs).2 ++ [bad])) ∧
    (∀ (ρ ε : Type) (catOf : ρ → String) (pnet : Url → Except ε ρ)
      (pre post : List Url) (bad : Url) (e : ε) (acc : List (String × List ρ)),
      pnet bad = .error e →
      processBooksC catOf pnet (pre ++ bad :: post) acc =
        CProcRes.crashed (match processBooksC catOf pnet pre acc with
          | .done a => a
          | .crashed a => a)) ∧
    (∀ (ρ ε : Type) (catOf : ρ → String) (pnet : Url → Except ε ρ)
      (lnet : Url → ListResp) (start : Url) (st : Nat) (hrefs : List String)
      (fuel : Nat),
      lnet start = ListResp.resp st ⟨hrefs, none⟩ →
      scrape_all_books_A lnet pnet catOf none (fuel + 2) start =
        CrawlOut.ok
          (processBooks "Unknown" catOf pnet (hrefs.map (urljoin start)) [] []).1
          (processBooks "Unknown" catOf pnet (hrefs.map (urljoin start)) [] []).2
          [start, start]) ∧
    (∀ (ρ ε : Type) (catOf : ρ → String) (pnet : Url → Except ε ρ)
      (lnet : Url → ListResp) (start : Url) (st : Nat) (hrefs : List String)
      (fuel : Nat) (a : List (String × List ρ)),
      lnet start = ListResp.resp st ⟨hrefs, none⟩ → isHttpError st = false →
      processBooksC catOf pnet (hrefs.map (urljoin start)) [] =
        CProcRes.crashed a →
      scrape_all_C lnet pnet catOf none (fuel + 1) start =
        CrawlOut.crashed a [start]) := by
  refine ⟨?_, ?_, ?_, ?_⟩
  · intro ρ ε default catOf pnet pre post bad e acc errs hbad
    induction pre generalizing acc errs with
    | nil => simp [processBooks, hbad]
    | cons u pre' ih =>
      cases hpu : pnet u with
      | ok d => simp [processBooks, hpu, ih]
      | error err => simp [processBooks, hpu, ih]
  · intro ρ ε catOf pnet pre post bad e acc hbad
    induction pre generalizing acc with
    | nil => simp [processBooksC, hbad]
    | cons u pre' ih =>
      cases hpu : pnet u with
      | ok d => simp [processBooksC, hpu, ih]
      | error err => simp [processBooksC, hpu]
  · intro ρ ε catOf pnet lnet start st hrefs fuel hnet
    simp [scrape_all_books_A, scrape_all_books_loopA, budgetExceededA,
      get_book_urls_from_page, get_next_page_url, hnet]
  · intro ρ ε catOf pnet lnet start st hrefs fuel a hnet hst hproc
    simp [scrape_all_C, scrape_all_loopC, parse_listing_product_links, get_soup,
      hnet, hst, Except.map, hproc]

theorem C1_per_product_failure_amended_witness :
    processBooks "Unknown" Prod.fst prodNetC1
        ["http://site/b1.html", "http://site/b2.html", "http://site/b3.html"] [] [] =
      processBooks "Unknown" Prod.fst prodNetC1 ["http://site/b3.html"]
        [("Fiction", [("Fiction", "http://site/b1.html")])] ["http://site/b2.html"] ∧
    processBooksC Prod.fst prodNetC1
        ["http://site/b1.html", "http://site/b2.html", "http://site/b3.html"] [] =
      CProcRes.crashed [("Fiction", [("Fiction", "http://site/b1.html")])] ∧
    scrape_all_books_A listNetC1 prodNetC1 Prod.fst none 2 "http://site/page-1.html" =
      CrawlOut.ok
        [("Fiction", [("Fiction", "http://site/b1.html"),
          ("Fiction", "http://site/b3.html")])]
        ["http://site/b2.html"]
        ["http://site/page-1.html", "http://site/page-1.html"] ∧
    scrape_all_C listNetC1 prodNetC1 Prod.fst none 1 "http://site/page-1.html" =
      CrawlOut.crashed [("Fiction", [("Fiction", "http://site/b1.html")])]
        ["http://site/page-1.html"] :=
  ⟨C1_per_product_failure_amended.1 (String × String) String "Unknown" Prod.fst
      prodNetC1 ["http://site/b1.html"] ["http://site/b3.html"]
      "http://site/b2.html" "boom" [] [] rfl,
   C1_per_product_failure_amended.2.1 (String × String) String Prod.fst prodNetC1
      ["http://site/b1.html"] ["http://site/b3.html"] "http://site/b2.html"
      "boom" [] rfl,
   C1_per_product_failure_amended.2.2.1 (String × String) String Prod.fst prodNetC1
      listNetC1 "http://site/page-1.html" 200 ["b1.html", "b2.html", "b3.html"]
      0 rfl,
   C1_per_product_failure_amended.2.2.2 (String × String) String Prod.fst prodNetC1
      listNetC1 "http://site/page-1.html" 200 ["b1.html", "b2.html", "b3.html"]
      0 [("Fiction", [("Fiction", "http://site/b1.html")])] rfl rfl rfl⟩

/-- C2: with a page budget of 1 and a first listing page that advertises a
next-page locator, both crawler variants process exactly the products of
that one page — the result groups are exactly the first page's records and
the error log its failures — and the advertised next-page URL is never
fetched: `all_books_data` re-fetches only the current page to discover the
locator and then breaks (`page_number > max_pages` at the loop top), while
`images_book_data` breaks before even discovering it
(`page_number >= max_pages` before the next-page fetch). -/
theorem C2_page_budget_one :
    (∀ (ρ ε : Type) (catOf : ρ → String) (pnet : Url → Except ε ρ)
      (lnet : Url → ListResp) (start nextHref : Url) (st : Nat)
      (hrefs : List String) (k : Nat),
      lnet start = ListResp.resp st ⟨hrefs, some nextHref⟩ →
      urljoin start nextHref ≠ start →
      scrape_all_books_A lnet pnet catOf (some 1) (k + 2) start =
        CrawlOut.ok
          (processBooks "Unknown" catOf pnet (hrefs.map (urljoin start)) [] []).1
          (processBooks "Unknown" catOf pnet (hrefs.map (urljoin start)) [] []).2
          [start, start] ∧
      urljoin start nextHref ∉ [start, start]) ∧
    (∀ (ρ ε : Type) (catOf : ρ → String) (pnet : Url → Except ε ρ)
      (lnet : Url → ListResp) (start nextHref : Url) (st : Nat)
      (hrefs : List String) (k : Nat),
      lnet start = ListResp.resp st ⟨hrefs, some nextHref⟩ →
      isHttpError st = false →
      urljoin start nextHref ≠ start →
      scrape_all_books_B lnet pnet catOf (some 1) (k + 1) start =
        CrawlOut.ok
          (processBooks "Unknown" catOf pnet (hrefs.map (urljoin start)) [] []).1
          (processBooks "Unknown" catOf pnet (hrefs.map (urljoin start)) [] []).2
          [start] ∧
      urljoin start nextHref ∉ [start]) := by
  constructor
  · intro ρ ε catOf pnet lnet start nextHref st hrefs k hnet hne
    refine ⟨?_, ?_⟩
    · simp [scrape_all_books_A, scrape_all_books_loopA, budgetExceededA,
        get_book_urls_from_page, get_next_page_url, hnet]
    · simp [hne]
  · intro ρ ε catOf pnet lnet start nextHref st hrefs k hnet hst hne
    refine ⟨?_, ?_⟩
    · simp [scrape_all_books_B, scrape_all_books_loopB, budgetReachedB,
        parse_listing_product_links, get_soup, hnet, hst, Except.map]
    · simp [hne]

/-- Listing stub: page 1 has one product and advertises `page-2.html`;
every other URL (page 2 included) answers with one product and no next
link. -/
def listNetC2 : Url → ListResp := fun u =>
  if u = "http://site/page-1.html" then
    ListResp.resp 200 ⟨["b1.html"], some "page-2.html"⟩
  else ListResp.resp 200 ⟨["b2.html"], none⟩

/-- Product stub: every product page succeeds with category `"Fiction"`. -/
def prodNetC2 : Url → Except String (String × String) := fun u => .ok ("Fiction", u)

theorem C2_page_budget_one_witness :
    scrape_all_books_A listNetC2 prodNetC2 Prod.fst (some 1) 2
        "http://site/page-1.html" =
      CrawlOut.ok [("Fiction", [("Fiction", "http://site/b1.html")])] []
        ["http://site/page-1.html", "http://site/page-1.html"] ∧
    "http://site/page-2.html" ∉
      ["http://site/page-1.html", "http://site/page-1.html"] ∧
    scrape_all_books_B listNetC2 prodNetC2 Prod.fst (some 1) 1
        "http://site/page-1.html" =
      CrawlOut.ok [("Fiction", [("Fiction", "http://site/b1.html")])] []
        ["http://site/page-1.html"] ∧
    "http://site/page-2.html" ∉ ["http://site/page-1.html"] :=
  ⟨(C2_page_budget_one.1 (String × String) String Prod.fst prodNetC2 listNetC2
      "http://site/page-1.html" "page-2.html" 200 ["b1.html"] 0 rfl (by decide)).1,
   (C2_page_budget_one.1 (String × String) String Prod.fst prodNetC2 listNetC2
      "http://site/page-1.html" "page-2.html" 200 ["b1.html"] 0 rfl (by decide)).2,
   (C2_page_budget_one.2 (String × String) String Prod.fst prodNetC2 listNetC2
      "http://site/page-1.html" "page-2.html" 200 ["b1.html"] 0 rfl rfl
      (by decide)).1,
   (C2_page_budget_one.2 (String × String) String Prod.fst prodNetC2 listNetC2
      "http://site/page-1.html" "page-2.html" 200 ["b1.html"] 0 rfl rfl
      (by decide)).2⟩

/-- A record as handed to `write_csvs`: the Python dict, as an ordered
association list from column name to cell text. -/
abbrev Row := List (String × String)

/-- Python `dict.get(k, dflt)` on a record; also the net effect of
pandas serialising a NaN cell (a key some other row has but this row
lacks) as the empty value. -/
def rowGet : Row → String → String → String
  | [], _, dflt => dflt
  | (k', v) :: rest, k, dflt => if k' = k then v else rowGet rest k dflt

/-- The fixed column list of `books_data_images.write_csvs` (identical in
`images_book_data.__main__` and `test2_image.write_category_csvs`). -/
def wanted_cols : List String :=
  ["title", "upc", "price_incl_tax_gbp", "price_excl_tax_gbp", "availability",
   "description", "category", "product_page_url", "image_url", "image_path"]

/-- The column list claim C9 asserts, transcribed from the spec's words —
kept as a separate definition purely for comparison with the source's
`wanted_cols`. -/
def spec_claimed_cols : List String :=
  ["title", "upc", "price_incl_tax", "price_excl_tax", "availability",
   "description", "category", "product_page_url", "image_url", "image_path"]

/-- One emitted CSV file: output path, header row, data rows. -/
structure CsvFile where
  path : String
  header : List String
  rows : List (List String)
deriving DecidableEq

/-- `books_data_images.write_csvs`: one file per category named from the
sanitized category under `OUTPUT_DIR`, whose columns are forced to exactly
`wanted_cols` — a column absent from the whole DataFrame is created filled
with `""` (`df[c] = ""`), `df = df[cols]` fixes the order and drops
extras, and a cell whose own row lacks the key is NaN and serialises
empty.  Net effect per cell: `row.get(col, "")`. -/
def write_csvs (data_by_cat : List (String × List Row)) : List CsvFile :=
  data_by_cat.map (fun p =>
    { path := "books_csv/" ++ cleaner (some p.1) ++ ".csv",
      header := wanted_cols,
      rows := p.2.map (fun r => wanted_cols.map (fun c => rowGet r c "")) })

/-- A one-category group whose single record populates only `title` and
`upc`. -/
def sampleGroup : List (String × List Row) :=
  [("Poetry", [[("title", "T"), ("upc", "u1")]])]

/-- C9 is false as stated: the exporter's fixed column set is
`price_incl_tax_gbp` / `price_excl_tax_gbp`, not the claimed
`price_incl_tax` / `price_excl_tax`. -/
theorem C9_columns_counterexample :
    (write_csvs sampleGroup).map (fun f => f.header) = [wanted_cols] ∧
    wanted_cols ≠ spec_claimed_cols ∧
    "price_incl_tax" ∉ wanted_cols :=
  ⟨rfl, by decide, by decide⟩

/-- C9 amended: every emitted file's header is exactly `wanted_cols` (with
the `_gbp` price column names); each group's file carries one output row
per record with the cells `row.get(col, "")` in `wanted_cols` order; and a
column never populated by any record of the group (such as `image_path`)
is still emitted, with the empty value in every row. -/
theorem C9_exporter_columns_amended :
    (∀ (d : List (String × List Row)) (f : CsvFile), f ∈ write_csvs d →
      f.header = wanted_cols) ∧
    (∀ (d : List (String × List Row)) (cat : String) (rows : List Row),
      (cat, rows) ∈ d →
      CsvFile.mk ("books_csv/" ++ cleaner (some cat) ++ ".csv") wanted_cols
          (rows.map (fun r => wanted_cols.map (fun c => rowGet r c ""))) ∈
        write_csvs d) ∧
    (∀ (rows : List Row) (c : String) (i : Nat),
      wanted_cols.get? i = some c →
      (∀ r ∈ rows, rowGet r c "" = "") →
      ∀ out ∈ rows.map (fun r => wanted_cols.map (fun c' => rowGet r c' "")),
        out.get? i = some "") := by
  refine ⟨?_, ?_, ?_⟩
  · intro d f hf
    rcases List.mem_map.mp hf with ⟨p, hp, rfl⟩
    rfl
  · intro d cat rows h
    exact List.mem_map.mpr ⟨(cat, rows), h, rfl⟩
  · intro rows c i hci hempty out hout
    rcases List.mem_map.mp hout with ⟨r, hr, rfl⟩
    rw [List.get?_eq_getElem?, List.getElem?_map]
    rw [List.get?_eq_getElem?] at hci
    rw [hci]
    simp [hempty r hr]

theorem C9_exporter_columns_amended_witness :
    CsvFile.mk "books_csv/Poetry.csv" wanted_cols
        [["T", "u1", "", "", "", "", "", "", "", ""]] ∈ write_csvs sampleGroup ∧
    (CsvFile.mk "books_csv/Poetry.csv" wanted_cols
        [["T", "u1", "", "", "", "", "", "", "", ""]]).header = wanted_cols ∧
    (∀ out ∈ [[("title", "T"), ("upc", "u1")]].map
        (fun r => wanted_cols.map (fun c => rowGet r c "")),
      out.get? 9 = some "") :=
  ⟨C9_exporter_columns_amended.2.1 sampleGroup "Poetry"
      [[("title", "T"), ("upc", "u1")]] (by decide),
   C9_exporter_columns_amended.1 sampleGroup _
      (C9_exporter_columns_amended.2.1 sampleGroup "Poetry"
        [[("title", "T"), ("upc", "u1")]] (by decide)),
   C9_exporter_columns_amended.2.2 [[("title", "T"), ("upc", "u1")]]
      "image_path" 9 rfl (by decide)⟩
